import Mathlib

/-!
Verification model of the printavo Rust client (src/lib.rs, src/auth.rs,
src/error.rs, src/from_response.rs, src/page.rs, src/orders.rs).

The request-execution engine, the builder, the response decoder and the
pagination envelope are embedded shallowly: reqwest's `RequestBuilder` is a
descriptor of method, url, headers, query parameters and body kind; a send
oracle `Nat → SendOutcome` stands for the transport, giving the outcome of
each successive send attempt; JSON documents are an inductive `Json`.
-/

/-- src/lib.rs line 1: `const MAX_RETRIES: u32 = 3;` -/
def MAX_RETRIES : Nat := 3

/-- src/lib.rs line 24: `const PRINTAVO_BASE_URL: &str = "https://www.printavo.com";` -/
def PRINTAVO_BASE_URL : String := "https://www.printavo.com"

/-- JSON documents (model of serde_json values). Numbers are modelled as
rationals, which covers every numeric literal the client's schemas use. -/
inductive Json where
  | null : Json
  | bool (b : Bool) : Json
  | num (n : Rat) : Json
  | str (s : String) : Json
  | arr (elems : List Json) : Json
  | obj (fields : List (String × Json)) : Json

/-- src/lib.rs lines 26-32: `enum AuthState { None, TokenAuth { email, token } }`.
In the Rust source both fields are plain `String`s. -/
inductive AuthState where
  | none : AuthState
  | tokenAuth (email : String) (token : String) : AuthState
deriving DecidableEq, Repr

/-- src/lib.rs lines 34-37: `enum Version { V1 }`. -/
inductive Version where
  | v1 : Version
deriving DecidableEq, Repr

/-- src/lib.rs lines 45-51: `Display for Version` renders `V1` as `"v1"`. -/
def Version.render : Version → String
  | .v1 => "v1"

/-- Body of a not-yet-sent request: `_get_with_headers` never sets a body,
`_post` sets a replayable JSON byte body via `.json(body)`; a streaming body
(possible through raw reqwest, never through this crate's constructors) is the
one body kind `RequestBuilder::try_clone` cannot clone. -/
inductive BodyKind where
  | noBody : BodyKind
  | jsonBytes (j : Json) : BodyKind
  | stream : BodyKind

/-- Model of `reqwest::RequestBuilder`: the descriptor of one not-yet-sent
request (method is irrelevant to every property proved here and is dropped;
`url` is the absolute url, `query` the accumulated query parameters in order,
`headers` the per-request headers, `body` the body kind). -/
structure Request where
  url : String
  headers : List (String × String)
  query : List (String × String)
  body : BodyKind

/-- `reqwest::RequestBuilder::try_clone`: returns `None` exactly when the body
is a non-replayable stream, otherwise an identical clone. -/
def Request.tryClone (r : Request) : Option Request :=
  match r.body with
  | .stream => Option.none
  | _ => Option.some r

/-- `request.query(&[("email", email), ("token", token)])` — appends the two
auth query parameters to the descriptor (src/lib.rs line 170). -/
def Request.addAuthQuery (r : Request) (email token : String) : Request :=
  { r with query := r.query ++ [("email", email), ("token", token)] }

/-- A completed HTTP response: status code and JSON body. -/
structure Response where
  status : Nat
  body : Json

/-- Outcome of one `request.send().await`: `Ok(response)` or a transport
error that optionally carries a status code (`reqwest::Error::status`). -/
inductive SendOutcome where
  | ok (resp : Response) : SendOutcome
  | err (status : Option Nat) : SendOutcome

/-- src/lib.rs lines 172-175: status classification of a send result,
uniform over the `Ok` and `Err` paths. -/
def statusOf : SendOutcome → Option Nat
  | .ok v => Option.some v.status
  | .err e => e

/-- src/error.rs: the error taxonomy. `http` is `Error::Http` (transport,
retaining the status the reqwest error carries, if any), `json` is
`Error::Json` (decode failure with the rendered serde_path_to_error path),
`url` is `Error::Url` (url join failure). -/
inductive Error where
  | http (status : Option Nat) : Error
  | json (path : String) (message : String) : Error
  | url : Error
deriving DecidableEq, Repr

/-- src/lib.rs line 185: `return Ok(result?)` — an `Ok` send result is
returned as-is, an `Err` is converted into `Error::Http` by `?`. -/
def sendToResult : SendOutcome → Except Error Response
  | .ok v => .ok v
  | .err e => .error (.http e)

/-- src/lib.rs lines 159-171: one pass of the auth-attachment step of
`execute`. `AuthState::None` leaves the descriptor unchanged with no snapshot;
`AuthState::TokenAuth` snapshots the pre-auth descriptor
(`request.try_clone().unwrap()` — `Option.none` here is the unwrap panic) and
appends the `email`/`token` query parameters. Result: (snapshot, descriptor
actually sent). -/
def attachAuth : AuthState → Request → Option (Option Request × Request)
  | .none, request => Option.some (Option.none, request)
  | .tokenAuth email token, request =>
      match request.tryClone with
      | Option.some snap => Option.some (Option.some snap, request.addAuthQuery email token)
      | Option.none => Option.none

/-- src/lib.rs lines 154-187: the retry loop of `Printavo::execute`.
`budget` is `MAX_RETRIES - retries`, so `retries < MAX_RETRIES` in the source
is `budget ≠ 0` here and each `retries += 1` is one decrement; at budget 0
the source's retry branch is unreachable and the attempt's result is returned
whatever its status, which is the first equation. `attempt` indexes the send
oracle. Returns `Option.none` when the source would panic (the snapshot
unwrap), otherwise the final result together with the trace of descriptors
actually sent, in order. -/
def executeAux (auth : AuthState) (send : Nat → SendOutcome) :
    Nat → Request → Nat → Option (Except Error Response × List Request)
  | 0, request, attempt =>
    match attachAuth auth request with
    | Option.none => Option.none
    | Option.some (_, toSend) => Option.some (sendToResult (send attempt), [toSend])
  | b + 1, request, attempt =>
    match attachAuth auth request with
    | Option.none => Option.none
    | Option.some (retryRequest, toSend) =>
      let result := send attempt
      if statusOf result = Option.some 401 then
        match retryRequest with
        | Option.some retry =>
            (executeAux auth send b retry (attempt + 1)).map
              (fun rt => (rt.1, toSend :: rt.2))
        | Option.none => Option.some (sendToResult result, [toSend])
      else Option.some (sendToResult result, [toSend])

/-- src/lib.rs lines 53-59: the built client. The reqwest transport handle is
external and carries no state the claims touch; the remaining fields are the
client configuration. -/
structure Printavo where
  auth_state : AuthState
  base_url : String
  version : Version
deriving DecidableEq, Repr

/-- src/lib.rs lines 154-187 `Printavo::execute`: the retry loop, starting at
`retries = 0` (budget `MAX_RETRIES`) and the first attempt, over the client's
credential state. -/
def Printavo.execute (self : Printavo) (request : Request) (send : Nat → SendOutcome) :
    Option (Except Error Response × List Request) :=
  executeAux self.auth_state send MAX_RETRIES request 0

/-- src/lib.rs lines 69-71 `Printavo::absolute_url`: `self.base_url.join(url)`.
The url crate's join is external; it is passed in as `join base route`,
returning `Option.none` on a parse failure (which `?` turns into `Error::Url`). -/
def Printavo.absolute_url (self : Printavo) (join : String → String → Option String)
    (route : String) : Option String :=
  join self.base_url route

/-- serde_path_to_error path segments: a map key or a sequence index. -/
inductive Seg where
  | field (name : String) : Seg
  | index (i : Nat) : Seg
deriving DecidableEq, Repr

/-- serde_path_to_error's Display rendering of a path: keys joined with dots,
indices in brackets; the empty path renders as a lone dot. -/
def renderSegs (segs : List Seg) : String :=
  match segs with
  | [] => "."
  | _ => segs.foldl
      (fun acc s =>
        match s with
        | Seg.field n => if acc.isEmpty then n else acc ++ "." ++ n
        | Seg.index i => acc ++ "[" ++ toString i ++ "]")
      ""

/-- serde_json deserialization of `u32`: an integral number in range. -/
def decodeU32 : Json → Except String Nat
  | .num n =>
      if n.den = 1 then
        if 0 ≤ n.num ∧ n.num < 4294967296 then .ok n.num.toNat
        else .error "invalid value: out of range integer, expected u32"
      else .error "invalid type: floating point, expected u32"
  | .str _ => .error "invalid type: string, expected u32"
  | .null => .error "invalid type: null, expected u32"
  | .bool _ => .error "invalid type: boolean, expected u32"
  | .arr _ => .error "invalid type: sequence, expected u32"
  | .obj _ => .error "invalid type: map, expected u32"

/-- serde_json deserialization of `u8`: an integral number in range. -/
def decodeU8 : Json → Except String Nat
  | .num n =>
      if n.den = 1 then
        if 0 ≤ n.num ∧ n.num < 256 then .ok n.num.toNat
        else .error "invalid value: out of range integer, expected u8"
      else .error "invalid type: floating point, expected u8"
  | .str _ => .error "invalid type: string, expected u8"
  | .null => .error "invalid type: null, expected u8"
  | .bool _ => .error "invalid type: boolean, expected u8"
  | .arr _ => .error "invalid type: sequence, expected u8"
  | .obj _ => .error "invalid type: map, expected u8"

/-- serde_json deserialization of `f32` (src/orders.rs `order_total`,
`amount`): any JSON number; modelled over rationals. -/
def decodeF32 : Json → Except String Rat
  | .num n => .ok n
  | .str _ => .error "invalid type: string, expected f32"
  | .null => .error "invalid type: null, expected f32"
  | .bool _ => .error "invalid type: boolean, expected f32"
  | .arr _ => .error "invalid type: sequence, expected f32"
  | .obj _ => .error "invalid type: map, expected f32"

/-- src/orders.rs lines 4-8: `struct Order { id: u32, order_total: f32 }`. -/
structure Order where
  id : Nat
  order_total : Rat
deriving DecidableEq, Repr

/-- Derived serde Deserialize for `Order`, field loop: entries of the JSON
object are consumed in document order; known keys decode their value (a
failure inside a value extends the error path by that key), unknown keys are
ignored, duplicates and missing fields fail at the struct's own path. -/
def decodeOrderFields (path : List Seg) :
    List (String × Json) → Option Nat → Option Rat → Except (List Seg × String) Order
  | [], Option.some i, Option.some t => .ok ⟨i, t⟩
  | [], Option.none, _ => .error (path, "missing field id")
  | [], Option.some _, Option.none => .error (path, "missing field order_total")
  | (k, v) :: rest, iAcc, tAcc =>
    if k = "id" then
      match iAcc with
      | Option.some _ => .error (path, "duplicate field id")
      | Option.none =>
        match decodeU32 v with
        | .error m => .error (path ++ [Seg.field "id"], m)
        | .ok n => decodeOrderFields path rest (Option.some n) tAcc
    else if k = "order_total" then
      match tAcc with
      | Option.some _ => .error (path, "duplicate field order_total")
      | Option.none =>
        match decodeF32 v with
        | .error m => .error (path ++ [Seg.field "order_total"], m)
        | .ok t => decodeOrderFields path rest iAcc (Option.some t)
    else decodeOrderFields path rest iAcc tAcc

/-- Derived serde Deserialize for `Order` at a JSON value. -/
def decodeOrder (path : List Seg) : Json → Except (List Seg × String) Order
  | .obj fields => decodeOrderFields path fields Option.none Option.none
  | _ => .error (path, "invalid type: expected struct Order")

/-- serde Deserialize for `Vec<Order>`, element loop: element `i` decodes at
path `path[i]`. -/
def decodeOrderElems (path : List Seg) :
    Nat → List Json → Except (List Seg × String) (List Order)
  | _, [] => .ok []
  | i, x :: rest =>
    match decodeOrder (path ++ [Seg.index i]) x with
    | .error e => .error e
    | .ok o =>
      match decodeOrderElems path (i + 1) rest with
      | .error e => .error e
      | .ok os => .ok (o :: os)

/-- serde Deserialize for `Vec<Order>` at a JSON value. -/
def decodeOrderVec (path : List Seg) : Json → Except (List Seg × String) (List Order)
  | .arr xs => decodeOrderElems path 0 xs
  | _ => .error (path, "invalid type: expected a sequence")

/-- src/page.rs lines 5-11: `struct PageMeta { page: u32, per_page: u8,
total_count: u32, total_pages: u32 }`. -/
structure PageMeta where
  page : Nat
  per_page : Nat
  total_count : Nat
  total_pages : Nat
deriving DecidableEq, Repr

/-- Derived serde Deserialize for `PageMeta`, field loop (same regime as
`decodeOrderFields`). -/
def decodePageMetaFields (path : List Seg) :
    List (String × Json) → Option Nat → Option Nat → Option Nat → Option Nat →
    Except (List Seg × String) PageMeta
  | [], Option.some p, Option.some pp, Option.some tc, Option.some tp => .ok ⟨p, pp, tc, tp⟩
  | [], Option.none, _, _, _ => .error (path, "missing field page")
  | [], Option.some _, Option.none, _, _ => .error (path, "missing field per_page")
  | [], Option.some _, Option.some _, Option.none, _ => .error (path, "missing field total_count")
  | [], Option.some _, Option.some _, Option.some _, Option.none =>
      .error (path, "missing field total_pages")
  | (k, v) :: rest, p, pp, tc, tp =>
    if k = "page" then
      match p with
      | Option.some _ => .error (path, "duplicate field page")
      | Option.none =>
        match decodeU32 v with
        | .error m => .error (path ++ [Seg.field "page"], m)
        | .ok n => decodePageMetaFields path rest (Option.some n) pp tc tp
    else if k = "per_page" then
      match pp with
      | Option.some _ => .error (path, "duplicate field per_page")
      | Option.none =>
        match decodeU8 v with
        | .error m => .error (path ++ [Seg.field "per_page"], m)
        | .ok n => decodePageMetaFields path rest p (Option.some n) tc tp
    else if k = "total_count" then
      match tc with
      | Option.some _ => .error (path, "duplicate field total_count")
      | Option.none =>
        match decodeU32 v with
        | .error m => .error (path ++ [Seg.field "total_count"], m)
        | .ok n => decodePageMetaFields path rest p pp (Option.some n) tp
    else if k = "total_pages" then
      match tp with
      | Option.some _ => .error (path, "duplicate field total_pages")
      | Option.none =>
        match decodeU32 v with
        | .error m => .error (path ++ [Seg.field "total_pages"], m)
        | .ok n => decodePageMetaFields path rest p pp tc (Option.some n)
    else decodePageMetaFields path rest p pp tc tp

/-- Derived serde Deserialize for `PageMeta` at a JSON value. The four
fields are taken verbatim from the document; nothing is recomputed. -/
def decodePageMeta (path : List Seg) : Json → Except (List Seg × String) PageMeta
  | .obj fields => decodePageMetaFields path fields Option.none Option.none Option.none Option.none
  | _ => .error (path, "invalid type: expected struct PageMeta")

/-- src/page.rs lines 13-17: `struct Page<T> { meta: PageMeta, data: Vec<T> }`. -/
structure Page (T : Type) where
  meta : PageMeta
  data : List T
deriving DecidableEq, Repr

/-- src/page.rs lines 19-26: `IntoIterator for Page<T>` is
`self.data.into_iter()` — one-shot consuming iteration over the items. -/
def Page.intoIter {T : Type} (p : Page T) : List T := p.data

/-- src/page.rs lines 28-34: `IntoIterator for &Page<T>` is
`self.data.iter()` — read-only iteration over the items. -/
def Page.iterRef {T : Type} (p : Page T) : List T := p.data

/-- Derived serde Deserialize for `Page<Order>`, field loop over the two
fields `meta` and `data` in document order. -/
def decodePageFields (path : List Seg) :
    List (String × Json) → Option PageMeta → Option (List Order) →
    Except (List Seg × String) (Page Order)
  | [], Option.some m, Option.some d => .ok ⟨m, d⟩
  | [], Option.none, _ => .error (path, "missing field meta")
  | [], Option.some _, Option.none => .error (path, "missing field data")
  | (k, v) :: rest, mAcc, dAcc =>
    if k = "meta" then
      match mAcc with
      | Option.some _ => .error (path, "duplicate field meta")
      | Option.none =>
        match decodePageMeta (path ++ [Seg.field "meta"]) v with
        | .error e => .error e
        | .ok m => decodePageFields path rest (Option.some m) dAcc
    else if k = "data" then
      match dAcc with
      | Option.some _ => .error (path, "duplicate field data")
      | Option.none =>
        match decodeOrderVec (path ++ [Seg.field "data"]) v with
        | .error e => .error e
        | .ok d => decodePageFields path rest mAcc (Option.some d)
    else decodePageFields path rest mAcc dAcc

/-- Derived serde Deserialize for `Page<Order>` at a JSON value. -/
def decodePageOrder (path : List Seg) : Json → Except (List Seg × String) (Page Order)
  | .obj fields => decodePageFields path fields Option.none Option.none
  | _ => .error (path, "invalid type: expected struct Page")

/-- src/from_response.rs lines 8-15: the blanket `FromResponse` impl — read
the body, deserialize through serde_path_to_error, and turn a failure into
`Error::Json` carrying the rendered path. The decoder for the concrete target
type is the parameter `dec`. The status code is never inspected. -/
def fromResponseWith {α : Type} (dec : Json → Except (List Seg × String) α)
    (resp : Response) : Except Error α :=
  match dec resp.body with
  | .ok v => .ok v
  | .error e => .error (.json (renderSegs e.1) e.2)

/-- src/lib.rs `_get_with_headers` descriptor construction: a GET of the
absolute url with the serialized query parameters and optional headers
attached, and no body. -/
def mkGetRequest (u : String) (parameters : Option (List (String × String)))
    (headers : Option (List (String × String))) : Request :=
  { url := u
  , headers := match headers with | Option.some hs => hs | Option.none => []
  , query := match parameters with | Option.some ps => ps | Option.none => []
  , body := .noBody }

/-- src/lib.rs `_post` descriptor construction: a POST of the absolute url;
`.json(body)` sets a replayable byte body when a body is supplied. -/
def mkPostRequest (u : String) (body : Option Json) : Request :=
  { url := u
  , headers := []
  , query := []
  , body := match body with | Option.some j => .jsonBytes j | Option.none => .noBody }

/-- src/lib.rs lines 89-106 `get_with_headers` (and `get`, which passes no
headers): resolve the route (`absolute_url`, `Error::Url` on failure, sending
nothing), build the GET descriptor, run the retry loop, then decode the
response through `FromResponse`. Returns `Option.none` where the source
panics, else the outcome with the trace of sent descriptors. -/
def Printavo.get_with_headers {α : Type} (self : Printavo)
    (join : String → String → Option String) (route : String)
    (parameters : Option (List (String × String)))
    (headers : Option (List (String × String)))
    (dec : Json → Except (List Seg × String) α) (send : Nat → SendOutcome) :
    Option (Except Error α × List Request) :=
  match self.absolute_url join route with
  | Option.none => Option.some (.error Error.url, [])
  | Option.some u =>
    match self.execute (mkGetRequest u parameters headers) send with
    | Option.none => Option.none
    | Option.some (.error e, trace) => Option.some (.error e, trace)
    | Option.some (.ok resp, trace) => Option.some (fromResponseWith dec resp, trace)

/-- src/lib.rs lines 78-87 `Printavo::get`: `get_with_headers` with no
extra headers. -/
def Printavo.get {α : Type} (self : Printavo)
    (join : String → String → Option String) (route : String)
    (parameters : Option (List (String × String)))
    (dec : Json → Except (List Seg × String) α) (send : Nat → SendOutcome) :
    Option (Except Error α × List Request) :=
  self.get_with_headers join route parameters Option.none dec send

/-- src/lib.rs lines 127-151 `Printavo::post` / `_post`: resolve the route
(`Error::Url` on failure, sending nothing), build the POST descriptor, run
the retry loop, decode through `FromResponse`. -/
def Printavo.post {α : Type} (self : Printavo)
    (join : String → String → Option String) (route : String)
    (body : Option Json)
    (dec : Json → Except (List Seg × String) α) (send : Nat → SendOutcome) :
    Option (Except Error α × List Request) :=
  match self.absolute_url join route with
  | Option.none => Option.some (.error Error.url, [])
  | Option.some u =>
    match self.execute (mkPostRequest u body) send with
    | Option.none => Option.none
    | Option.some (.error e, trace) => Option.some (.error e, trace)
    | Option.some (.ok resp, trace) => Option.some (fromResponseWith dec resp, trace)

/-- The secrecy crate's `SecretString`: a wrapper around the secret. -/
structure SecretString where
  secretValue : String
deriving DecidableEq, Repr

/-- secrecy's `ExposeSecret::expose_secret`: the single sanctioned accessor. -/
def SecretString.expose_secret (s : SecretString) : String := s.secretValue

/-- Debug rendering of secrecy's `SecretString`: the secret is redacted. -/
def SecretString.debugFmt (_ : SecretString) : String :=
  "SecretString([REDACTED])"

/-- src/auth.rs lines 6-11: `enum Auth { None, Token { email, token } }`,
the builder-side credential with the token held as a `SecretString`. -/
inductive Auth where
  | none : Auth
  | token (email : String) (token : SecretString) : Auth
deriving DecidableEq, Repr

/-- src/auth.rs lines 13-17: `Default for Auth` is `Auth::None`. -/
def Auth.default : Auth := Auth.none

/-- http's `HeaderValue::from_str` validity (what `value.parse()` in
`PrintavoBuilder::build` checks): every byte must be horizontal tab or in
32..=255 excluding 127; control bytes such as a newline are invalid. -/
def isValidHeaderValue (s : String) : Bool :=
  s.data.all (fun c => c = '\t' || (32 ≤ c.toNat && c.toNat ≠ 127))

/-- src/lib.rs lines 200-206: `struct PrintavoBuilder`, `#[derive(Default)]`. -/
structure PrintavoBuilder where
  auth : Auth
  extra_headers : List (String × String)
  base_url : Option String
  version : Version
deriving DecidableEq, Repr

/-- `PrintavoBuilder::default()` / `Printavo::builder()`. -/
def PrintavoBuilder.default : PrintavoBuilder :=
  { auth := Auth.none, extra_headers := [], base_url := Option.none, version := Version.v1 }

/-- src/lib.rs lines 214-220 `PrintavoBuilder::token_auth`: store the email
and wrap the token in a `SecretString`. -/
def PrintavoBuilder.token_auth (b : PrintavoBuilder) (email token : String) :
    PrintavoBuilder :=
  { b with auth := Auth.token email ⟨token⟩ }

/-- src/lib.rs lines 229-236 `PrintavoBuilder::add_header`: push one extra
default header; the value is an arbitrary string, unvalidated here. -/
def PrintavoBuilder.add_header (b : PrintavoBuilder) (key value : String) :
    PrintavoBuilder :=
  { b with extra_headers := b.extra_headers ++ [(key, value)] }

/-- Outcome of `PrintavoBuilder::build`: `Ok(client)`, a returned error
(`build` has return type `Result<Printavo>`), or a process panic. -/
inductive BuildOutcome where
  | ok (client : Printavo) : BuildOutcome
  | err (e : Error) : BuildOutcome
  | panicked (msg : String) : BuildOutcome
deriving DecidableEq, Repr

/-- src/lib.rs lines 243-271 `PrintavoBuilder::build`: converts `Auth` into
`AuthState` by exposing the secret into a plain string, then parses every
extra header value with `value.parse().unwrap()` — the unwrap panics on an
invalid header value; the reqwest client construction (modelled as always
succeeding, its failure modes being internal to reqwest) is the only path
that could yield a returned error. The base url defaults to
`PRINTAVO_BASE_URL`. -/
def PrintavoBuilder.build (b : PrintavoBuilder) : BuildOutcome :=
  if b.extra_headers.all (fun kv => isValidHeaderValue kv.2) then
    BuildOutcome.ok
      { auth_state :=
          match b.auth with
          | Auth.none => AuthState.none
          | Auth.token email token => AuthState.tokenAuth email token.expose_secret
      , base_url := b.base_url.getD PRINTAVO_BASE_URL
      , version := b.version }
  else BuildOutcome.panicked "called Result::unwrap() on an Err value"

/-- `#[derive(Debug)]` rendering of `AuthState` (src/lib.rs line 25): the
`TokenAuth` variant prints both plain-string fields, token included. -/
def AuthState.debugFmt : AuthState → String
  | AuthState.none => "None"
  | AuthState.tokenAuth email token =>
      "TokenAuth \x7b email: \"" ++ email ++ "\", token: \"" ++ token ++ "\" \x7d"

/-- `#[derive(Debug)]` rendering of `Version` (src/lib.rs line 34). -/
def Version.debugFmt : Version → String
  | .v1 => "V1"

/-- `#[derive(Debug)]` rendering of the built client (src/lib.rs lines
53-59): every field is formatted with its own Debug impl; the reqwest client
field renders reqwest internals, elided as `Client`. -/
def Printavo.debugFmt (p : Printavo) : String :=
  "Printavo \x7b client: Client, auth_state: " ++ p.auth_state.debugFmt ++
    ", base_url: " ++ p.base_url ++ ", version: " ++ p.version.debugFmt ++ " \x7d"

/-- Modelled from the spec: `src/params.rs` is declared in src/lib.rs
(`pub mod params;`) but the file is absent from the sources; the spec (§6)
only names `direction` as an optional query parameter of the list endpoint,
so `params::Direction` is kept abstract as its serialized rendering. -/
structure Direction where
  rendered : String
deriving DecidableEq, Repr

/-- The external `time::OffsetDateTime`, kept abstract as its extended
ISO-8601 serialization (what `time::serde::iso8601` emits for it). -/
structure OffsetDateTime where
  iso8601 : String
deriving DecidableEq, Repr

/-- src/orders.rs lines 40-58: the serializable state of `ListOrdersBuilder`
(the `#[serde(skip)]` handler reference carries no serialized data and is
dropped). Every field is optional and starts unset. -/
structure ListOrdersBuilder where
  page : Option Nat
  per_page : Option Nat
  sort_column : Option String
  direction : Option Direction
  in_production_after : Option OffsetDateTime
  in_production_before : Option OffsetDateTime
deriving DecidableEq, Repr

/-- `ListOrdersBuilder::new` (src/orders.rs lines 61-71): all fields `None`. -/
def ListOrdersBuilder.new : ListOrdersBuilder :=
  ⟨Option.none, Option.none, Option.none, Option.none, Option.none, Option.none⟩

/-- Setter `page` (named `page'` because the field accessor takes the name). -/
def ListOrdersBuilder.page' (b : ListOrdersBuilder) (v : Nat) : ListOrdersBuilder :=
  { b with page := Option.some v }

/-- Setter `per_page`. -/
def ListOrdersBuilder.per_page' (b : ListOrdersBuilder) (v : Nat) : ListOrdersBuilder :=
  { b with per_page := Option.some v }

/-- Setter `sort_column`. -/
def ListOrdersBuilder.sort_column' (b : ListOrdersBuilder) (v : String) : ListOrdersBuilder :=
  { b with sort_column := Option.some v }

/-- Setter `direction`. -/
def ListOrdersBuilder.direction' (b : ListOrdersBuilder) (v : Direction) : ListOrdersBuilder :=
  { b with direction := Option.some v }

/-- Setter `in_production_after`. -/
def ListOrdersBuilder.in_production_after' (b : ListOrdersBuilder) (v : OffsetDateTime) :
    ListOrdersBuilder :=
  { b with in_production_after := Option.some v }

/-- Setter `in_production_before`. -/
def ListOrdersBuilder.in_production_before' (b : ListOrdersBuilder) (v : OffsetDateTime) :
    ListOrdersBuilder :=
  { b with in_production_before := Option.some v }

/-- Derived serde Serialize of `ListOrdersBuilder` into the outgoing
query-parameter bag: fields in declaration order, each one carrying
`#[serde(skip_serializing_if = "Option::is_none")]` so an unset field emits
nothing at all; the datetime fields serialize through
`time::serde::iso8601::option`. -/
def ListOrdersBuilder.serialize (b : ListOrdersBuilder) : List (String × String) :=
  (match b.page with
   | Option.some v => [("page", toString v)] | Option.none => []) ++
  (match b.per_page with
   | Option.some v => [("per_page", toString v)] | Option.none => []) ++
  (match b.sort_column with
   | Option.some v => [("sort_column", v)] | Option.none => []) ++
  (match b.direction with
   | Option.some v => [("direction", v.rendered)] | Option.none => []) ++
  (match b.in_production_after with
   | Option.some v => [("in_production_after", v.iso8601)] | Option.none => []) ++
  (match b.in_production_before with
   | Option.some v => [("in_production_before", v.iso8601)] | Option.none => [])

/-- src/orders.rs lines 115-125: the serializable state of
`SearchOrdersBuilder`. -/
structure SearchOrdersBuilder where
  page : Option Nat
  per_page : Option Nat
  query : Option String
deriving DecidableEq, Repr

/-- `SearchOrdersBuilder::new` (src/orders.rs lines 128-134): all fields
`None`. -/
def SearchOrdersBuilder.new : SearchOrdersBuilder :=
  ⟨Option.none, Option.none, Option.none⟩

/-- Setter `page`. -/
def SearchOrdersBuilder.page' (b : SearchOrdersBuilder) (v : Nat) : SearchOrdersBuilder :=
  { b with page := Option.some v }

/-- Setter `per_page`. -/
def SearchOrdersBuilder.per_page' (b : SearchOrdersBuilder) (v : Nat) : SearchOrdersBuilder :=
  { b with per_page := Option.some v }

/-- Setter `query`. -/
def SearchOrdersBuilder.query' (b : SearchOrdersBuilder) (v : String) : SearchOrdersBuilder :=
  { b with query := Option.some v }

/-- Derived serde Serialize of `SearchOrdersBuilder` into the outgoing
query-parameter bag (same regime as `ListOrdersBuilder.serialize`). -/
def SearchOrdersBuilder.serialize (b : SearchOrdersBuilder) : List (String × String) :=
  (match b.page with
   | Option.some v => [("page", toString v)] | Option.none => []) ++
  (match b.per_page with
   | Option.some v => [("per_page", toString v)] | Option.none => []) ++
  (match b.query with
   | Option.some v => [("query", v)] | Option.none => [])

lemma tryClone_eq_self {r : Request} (h : r.body ≠ BodyKind.stream) :
    r.tryClone = Option.some r := by
  unfold Request.tryClone
  cases hb : r.body <;> simp_all

lemma executeAux_none (send : Nat → SendOutcome) (b : Nat) (req : Request) (a : Nat) :
    executeAux AuthState.none send b req a =
      Option.some (sendToResult (send a), [req]) := by
  cases b with
  | zero =>
    rw [executeAux]
    simp only [attachAuth]
  | succ bb =>
    rw [executeAux]
    simp only [attachAuth]
    by_cases h : statusOf (send a) = Option.some 401
    · simp only [if_pos h]
    · simp only [if_neg h]

lemma executeAux_token_stop (e t : String) (send : Nat → SendOutcome) (b : Nat)
    (req : Request) (a : Nat) (hb : req.body ≠ BodyKind.stream)
    (h : ¬ statusOf (send a) = Option.some 401) :
    executeAux (AuthState.tokenAuth e t) send b req a =
      Option.some (sendToResult (send a), [req.addAuthQuery e t]) := by
  cases b with
  | zero =>
    rw [executeAux]
    simp only [attachAuth, tryClone_eq_self hb]
  | succ bb =>
    rw [executeAux]
    simp only [attachAuth, tryClone_eq_self hb]
    simp only [if_neg h]

lemma executeAux_token_exhaust (e t : String) (send : Nat → SendOutcome)
    (req : Request) (a : Nat) (hb : req.body ≠ BodyKind.stream) :
    executeAux (AuthState.tokenAuth e t) send 0 req a =
      Option.some (sendToResult (send a), [req.addAuthQuery e t]) := by
  rw [executeAux]
  simp only [attachAuth, tryClone_eq_self hb]

lemma executeAux_token_retry (e t : String) (send : Nat → SendOutcome) (b : Nat)
    (req : Request) (a : Nat) (hb : req.body ≠ BodyKind.stream)
    (h : statusOf (send a) = Option.some 401) :
    executeAux (AuthState.tokenAuth e t) send (b + 1) req a =
      (executeAux (AuthState.tokenAuth e t) send b req (a + 1)).map
        (fun rt => (rt.1, req.addAuthQuery e t :: rt.2)) := by
  rw [executeAux]
  simp only [attachAuth, tryClone_eq_self hb]
  simp only [if_pos h]

lemma executeAux_token_trace (e t : String) (send : Nat → SendOutcome)
    (req : Request) (hb : req.body ≠ BodyKind.stream) :
    ∀ b a res trace,
      executeAux (AuthState.tokenAuth e t) send b req a = Option.some (res, trace) →
      ∀ r ∈ trace, r = req.addAuthQuery e t := by
  intro b
  induction b with
  | zero =>
    intro a res trace hEq r hr
    rw [executeAux_token_exhaust e t send req a hb] at hEq
    simp only [Option.some.injEq, Prod.mk.injEq] at hEq
    rw [← hEq.2] at hr
    simpa using hr
  | succ bb ih =>
    intro a res trace hEq r hr
    by_cases h : statusOf (send a) = Option.some 401
    · rw [executeAux_token_retry e t send bb req a hb h] at hEq
      cases hE : executeAux (AuthState.tokenAuth e t) send bb req (a + 1) with
      | none => rw [hE] at hEq; simp at hEq
      | some rt =>
        rw [hE] at hEq
        simp only [Option.map_some', Option.some.injEq, Prod.mk.injEq] at hEq
        obtain ⟨h1, h2⟩ := hEq
        rw [← h2] at hr
        simp only [List.mem_cons] at hr
        rcases hr with hr | hr
        · exact hr
        · exact ih (a + 1) rt.1 rt.2 (by rw [hE]) r hr
    · rw [executeAux_token_stop e t send (bb + 1) req a hb h] at hEq
      simp only [Option.some.injEq, Prod.mk.injEq] at hEq
      rw [← hEq.2] at hr
      simpa using hr

lemma tryClone_stream {r : Request} (h : r.body = BodyKind.stream) :
    r.tryClone = Option.none := by
  unfold Request.tryClone
  rw [h]

lemma executeAux_no_panic (auth : AuthState) (send : Nat → SendOutcome)
    (req : Request) (hb : req.body ≠ BodyKind.stream) :
    ∀ b a, executeAux auth send b req a ≠ Option.none := by
  intro b
  induction b with
  | zero =>
    intro a
    cases auth with
    | none => rw [executeAux_none]; simp
    | tokenAuth e t => rw [executeAux_token_exhaust e t send req a hb]; simp
  | succ bb ih =>
    intro a
    cases auth with
    | none => rw [executeAux_none]; simp
    | tokenAuth e t =>
      by_cases h : statusOf (send a) = Option.some 401
      · rw [executeAux_token_retry e t send bb req a hb h]
        cases hE : executeAux (AuthState.tokenAuth e t) send bb req (a + 1) with
        | none => exact absurd hE (ih (a + 1))
        | some rt => simp
      · rw [executeAux_token_stop e t send (bb + 1) req a hb h]; simp

lemma executeAux_stream (e t : String) (send : Nat → SendOutcome)
    (req : Request) (hb : req.body = BodyKind.stream) (b a : Nat) :
    executeAux (AuthState.tokenAuth e t) send b req a = Option.none := by
  cases b with
  | zero => rw [executeAux]; simp only [attachAuth, tryClone_stream hb]
  | succ bb => rw [executeAux]; simp only [attachAuth, tryClone_stream hb]

/-- C10: requests constructed by `get`/`post` carry a query-only or a
replayable JSON-bytes body, so the pre-auth snapshot inside `execute`'s
TokenAuth branch (`request.try_clone().unwrap()`) always succeeds and the
unwrap never fires; a non-replayable streaming body — never produced by this
crate — is the one descriptor that makes it fire. -/
theorem snapshot_unwrap_unreachable :
    (∀ (p : Printavo) (u : String) (params headers : Option (List (String × String)))
       (send : Nat → SendOutcome),
      (p.execute (mkGetRequest u params headers) send).isSome = true) ∧
    (∀ (p : Printavo) (u : String) (body : Option Json) (send : Nat → SendOutcome),
      (p.execute (mkPostRequest u body) send).isSome = true) ∧
    (∀ (e t bu : String) (v : Version) (u : String) (hs qs : List (String × String))
       (send : Nat → SendOutcome),
      Printavo.execute ⟨AuthState.tokenAuth e t, bu, v⟩ ⟨u, hs, qs, BodyKind.stream⟩ send =
        Option.none) := by
  refine ⟨?_, ?_, ?_⟩
  · intro p u params headers send
    have h := executeAux_no_panic p.auth_state send
      (mkGetRequest u params headers) (by simp [mkGetRequest]) MAX_RETRIES 0
    cases hE : executeAux p.auth_state send MAX_RETRIES (mkGetRequest u params headers) 0 with
    | none => exact absurd hE h
    | some rt => show (executeAux _ _ _ _ _).isSome = true; rw [hE]; rfl
  · intro p u body send
    have hb : (mkPostRequest u body).body ≠ BodyKind.stream := by
      cases body <;> simp [mkPostRequest]
    have h := executeAux_no_panic p.auth_state send (mkPostRequest u body) hb MAX_RETRIES 0
    cases hE : executeAux p.auth_state send MAX_RETRIES (mkPostRequest u body) 0 with
    | none => exact absurd hE h
    | some rt => show (executeAux _ _ _ _ _).isSome = true; rw [hE]; rfl
  · intro e t bu v u hs qs send
    exact executeAux_stream e t send _ rfl MAX_RETRIES 0

/-- C1 (amended): with TokenAuth credentials and every send attempt
classifying as status 401, `execute` performs exactly `1 + MAX_RETRIES = 4`
send attempts (each of the pre-auth descriptor with the auth parameters
attached) and returns the final attempt's outcome as-is; that outcome is the
`Transport` error carrying status 401 exactly when the final send attempt is
a transport failure. -/
theorem execute_always401_four_attempts (p : Printavo) (e t : String) (req : Request)
    (send : Nat → SendOutcome) (hauth : p.auth_state = AuthState.tokenAuth e t)
    (hb : req.body ≠ BodyKind.stream)
    (h401 : ∀ n, statusOf (send n) = Option.some 401) :
    p.execute req send =
      Option.some (sendToResult (send MAX_RETRIES),
        List.replicate (1 + MAX_RETRIES) (req.addAuthQuery e t)) ∧
    (∀ s, send MAX_RETRIES = SendOutcome.err s →
      sendToResult (send MAX_RETRIES) = Except.error (Error.http (Option.some 401))) := by
  constructor
  · show executeAux p.auth_state send MAX_RETRIES req 0 = _
    rw [hauth]
    show executeAux (AuthState.tokenAuth e t) send 3 req 0 = _
    rw [executeAux_token_retry e t send 2 req 0 hb (h401 0),
        executeAux_token_retry e t send 1 req 1 hb (h401 1),
        executeAux_token_retry e t send 0 req 2 hb (h401 2),
        executeAux_token_exhaust e t send req 3 hb]
    rfl
  · intro s hs
    have h3 := h401 MAX_RETRIES
    rw [hs] at h3
    simp only [statusOf] at h3
    rw [hs, h3]
    rfl

/-- Witness for C1 (amended) at a transport stub failing with status 401 on
every attempt. -/
theorem execute_always401_four_attempts_witness :
    Printavo.execute
        ⟨AuthState.tokenAuth "user@example.com" "secret-token", PRINTAVO_BASE_URL, Version.v1⟩
        ⟨"https://www.printavo.com/api/v1/orders", [], [], BodyKind.noBody⟩
        (fun _ => SendOutcome.err (Option.some 401)) =
      Option.some (Except.error (Error.http (Option.some 401)),
        List.replicate 4
          (Request.addAuthQuery
            ⟨"https://www.printavo.com/api/v1/orders", [], [], BodyKind.noBody⟩
            "user@example.com" "secret-token")) := by
  have h := execute_always401_four_attempts
    ⟨AuthState.tokenAuth "user@example.com" "secret-token", PRINTAVO_BASE_URL, Version.v1⟩
    "user@example.com" "secret-token"
    ⟨"https://www.printavo.com/api/v1/orders", [], [], BodyKind.noBody⟩
    (fun _ => SendOutcome.err (Option.some 401)) rfl (by simp) (fun n => rfl)
  simpa using h.1

/-- C1 counterexample: a stub whose every attempt is an `Ok` response with
status 401 still makes exactly 4 attempts, but `execute` then returns the 401
response as `Ok` — not a `Transport` error, refuting the claim as stated. -/
theorem execute_always401_ok_counterexample :
    (statusOf (SendOutcome.ok ⟨401, Json.null⟩) = Option.some 401) ∧
    Printavo.execute
        ⟨AuthState.tokenAuth "user@example.com" "secret-token", PRINTAVO_BASE_URL, Version.v1⟩
        ⟨"https://www.printavo.com/api/v1/orders", [], [], BodyKind.noBody⟩
        (fun _ => SendOutcome.ok ⟨401, Json.null⟩) =
      Option.some (Except.ok ⟨401, Json.null⟩,
        List.replicate 4
          (Request.addAuthQuery
            ⟨"https://www.printavo.com/api/v1/orders", [], [], BodyKind.noBody⟩
            "user@example.com" "secret-token")) ∧
    (∀ st, (Except.ok (⟨401, Json.null⟩ : Response) : Except Error Response) ≠
      Except.error (Error.http st)) := by
  refine ⟨rfl, ?_, by intro st h; cases h⟩
  have h := execute_always401_four_attempts
    ⟨AuthState.tokenAuth "user@example.com" "secret-token", PRINTAVO_BASE_URL, Version.v1⟩
    "user@example.com" "secret-token"
    ⟨"https://www.printavo.com/api/v1/orders", [], [], BodyKind.noBody⟩
    (fun _ => SendOutcome.ok ⟨401, Json.null⟩) rfl (by simp) (fun n => rfl)
  simpa using h.1

/-- C2: with `Credential::None` no attempt of `execute` carries an `email` or
`token` query parameter; with `TokenAuth` every attempt (first and each
retry) carries exactly one `email=<identity>` and one `token=<secret>` pair,
with no duplication across the snapshot/restore cycle — provided the caller's
own parameter bag carries no `email`/`token` keys (no endpoint builder does). -/
theorem execute_auth_query_params (pn pt : Printavo) (e t : String) (req : Request)
    (send : Nat → SendOutcome)
    (hn : pn.auth_state = AuthState.none)
    (ht : pt.auth_state = AuthState.tokenAuth e t)
    (hb : req.body ≠ BodyKind.stream)
    (hqe : req.query.filter (fun q => q.1 == "email") = [])
    (hqt : req.query.filter (fun q => q.1 == "token") = []) :
    (∀ res trace, pn.execute req send = Option.some (res, trace) →
      ∀ r ∈ trace, r.query.filter (fun q => q.1 == "email") = [] ∧
                   r.query.filter (fun q => q.1 == "token") = []) ∧
    (∀ res trace, pt.execute req send = Option.some (res, trace) →
      ∀ r ∈ trace, r.query.filter (fun q => q.1 == "email") = [("email", e)] ∧
                   r.query.filter (fun q => q.1 == "token") = [("token", t)]) := by
  constructor
  · intro res trace hEq r hr
    unfold Printavo.execute at hEq
    rw [hn, executeAux_none] at hEq
    simp only [Option.some.injEq, Prod.mk.injEq] at hEq
    rw [← hEq.2] at hr
    simp only [List.mem_singleton] at hr
    subst hr
    exact ⟨hqe, hqt⟩
  · intro res trace hEq r hr
    unfold Printavo.execute at hEq
    rw [ht] at hEq
    have hall := executeAux_token_trace e t send req hb MAX_RETRIES 0 res trace hEq r hr
    subst hall
    constructor
    · show (req.query ++ [("email", e), ("token", t)]).filter (fun q => q.1 == "email") = _
      rw [List.filter_append, hqe]
      simp [List.filter]
    · show (req.query ++ [("email", e), ("token", t)]).filter (fun q => q.1 == "token") = _
      rw [List.filter_append, hqt]
      simp [List.filter]

/-- Witness for C2 at a concrete authenticated client, an empty caller
parameter bag and an always-401 stub: the descriptor actually sent on every
one of the four attempts carries exactly one email and one token pair. -/
theorem execute_auth_query_params_witness :
    (Request.addAuthQuery
        ⟨"https://www.printavo.com/api/v1/orders", [], [], BodyKind.noBody⟩
        "user@example.com" "secret-token").query.filter (fun q => q.1 == "email") =
      [("email", "user@example.com")] ∧
    (Request.addAuthQuery
        ⟨"https://www.printavo.com/api/v1/orders", [], [], BodyKind.noBody⟩
        "user@example.com" "secret-token").query.filter (fun q => q.1 == "token") =
      [("token", "secret-token")] := by
  have h := execute_auth_query_params
    ⟨AuthState.none, PRINTAVO_BASE_URL, Version.v1⟩
    ⟨AuthState.tokenAuth "user@example.com" "secret-token", PRINTAVO_BASE_URL, Version.v1⟩
    "user@example.com" "secret-token"
    ⟨"https://www.printavo.com/api/v1/orders", [], [], BodyKind.noBody⟩
    (fun _ => SendOutcome.err (Option.some 401))
    rfl rfl (by simp) rfl rfl
  exact h.2 (Except.error (Error.http (Option.some 401)))
    (List.replicate 4
      (Request.addAuthQuery
        ⟨"https://www.printavo.com/api/v1/orders", [], [], BodyKind.noBody⟩
        "user@example.com" "secret-token"))
    (by rfl)
    (Request.addAuthQuery
      ⟨"https://www.printavo.com/api/v1/orders", [], [], BodyKind.noBody⟩
      "user@example.com" "secret-token")
    (by simp)

/-- C3: the retry loop stops at the first attempt whose status is not exactly
401 — a 401 followed by a 200 makes exactly 2 attempts and returns the 200
response; a first attempt with any non-401 status (e.g. a 500 failure) makes
exactly 1 attempt and its outcome is surfaced unchanged. -/
theorem execute_retry_short_circuit (p : Printavo) (e t : String) (req : Request)
    (send1 send2 : Nat → SendOutcome) (resp : Response)
    (hauth : p.auth_state = AuthState.tokenAuth e t) (hb : req.body ≠ BodyKind.stream)
    (h0 : statusOf (send1 0) = Option.some 401)
    (h1 : send1 1 = SendOutcome.ok resp) (hst : resp.status = 200)
    (h2 : ¬ statusOf (send2 0) = Option.some 401) :
    p.execute req send1 =
      Option.some (Except.ok resp, [req.addAuthQuery e t, req.addAuthQuery e t]) ∧
    p.execute req send2 =
      Option.some (sendToResult (send2 0), [req.addAuthQuery e t]) := by
  constructor
  · show executeAux p.auth_state send1 MAX_RETRIES req 0 = _
    rw [hauth]
    show executeAux (AuthState.tokenAuth e t) send1 3 req 0 = _
    have hs1 : ¬ statusOf (send1 1) = Option.some 401 := by
      rw [h1]; simp [statusOf, hst]
    rw [executeAux_token_retry e t send1 2 req 0 hb h0,
        executeAux_token_stop e t send1 2 req 1 hb hs1, h1]
    rfl
  · show executeAux p.auth_state send2 MAX_RETRIES req 0 = _
    rw [hauth]
    exact executeAux_token_stop e t send2 MAX_RETRIES req 0 hb h2

/-- Witness for C3: a stub answering 401 then 200, and a stub failing with
500 on the first attempt. -/
theorem execute_retry_short_circuit_witness :
    Printavo.execute ⟨AuthState.tokenAuth "user@example.com" "secret-token",
          PRINTAVO_BASE_URL, Version.v1⟩
        ⟨"https://www.printavo.com/api/v1/orders", [], [], BodyKind.noBody⟩
        (fun n => if n = 0 then SendOutcome.err (Option.some 401)
                  else SendOutcome.ok ⟨200, Json.null⟩) =
      Option.some (Except.ok ⟨200, Json.null⟩,
        [Request.addAuthQuery ⟨"https://www.printavo.com/api/v1/orders", [], [], BodyKind.noBody⟩
           "user@example.com" "secret-token",
         Request.addAuthQuery ⟨"https://www.printavo.com/api/v1/orders", [], [], BodyKind.noBody⟩
           "user@example.com" "secret-token"]) ∧
    Printavo.execute ⟨AuthState.tokenAuth "user@example.com" "secret-token",
          PRINTAVO_BASE_URL, Version.v1⟩
        ⟨"https://www.printavo.com/api/v1/orders", [], [], BodyKind.noBody⟩
        (fun _ => SendOutcome.err (Option.some 500)) =
      Option.some (Except.error (Error.http (Option.some 500)),
        [Request.addAuthQuery ⟨"https://www.printavo.com/api/v1/orders", [], [], BodyKind.noBody⟩
           "user@example.com" "secret-token"]) := by
  have h := execute_retry_short_circuit
    ⟨AuthState.tokenAuth "user@example.com" "secret-token", PRINTAVO_BASE_URL, Version.v1⟩
    "user@example.com" "secret-token"
    ⟨"https://www.printavo.com/api/v1/orders", [], [], BodyKind.noBody⟩
    (fun n => if n = 0 then SendOutcome.err (Option.some 401)
              else SendOutcome.ok ⟨200, Json.null⟩)
    (fun _ => SendOutcome.err (Option.some 500))
    ⟨200, Json.null⟩ rfl (by simp) rfl rfl rfl (by simp [statusOf])
  exact ⟨h.1, h.2⟩

/-- C4: when the route fails to join against the client's base url,
`get`, `get_with_headers` and `post` return the `UrlConstruction` error
immediately, with an empty send trace — zero attempts, zero retries. -/
theorem url_failure_no_send {α : Type} (p : Printavo)
    (join : String → String → Option String) (route : String)
    (params : Option (List (String × String)))
    (headers : Option (List (String × String))) (body : Option Json)
    (dec : Json → Except (List Seg × String) α) (send : Nat → SendOutcome)
    (hjoin : join p.base_url route = Option.none) :
    p.get join route params dec send = Option.some (Except.error Error.url, []) ∧
    p.get_with_headers join route params headers dec send =
      Option.some (Except.error Error.url, []) ∧
    p.post join route body dec send = Option.some (Except.error Error.url, []) := by
  unfold Printavo.get Printavo.get_with_headers Printavo.post Printavo.absolute_url
  rw [hjoin]
  exact ⟨rfl, rfl, rfl⟩

/-- Witness for C4 at a join that rejects the route. -/
theorem url_failure_no_send_witness :
    Printavo.get ⟨AuthState.none, PRINTAVO_BASE_URL, Version.v1⟩
        (fun _ _ => Option.none) "http//:bad route" Option.none
        (fun j => decodePageOrder [] j) (fun _ => SendOutcome.err Option.none) =
      Option.some (Except.error Error.url, []) ∧
    Printavo.post ⟨AuthState.none, PRINTAVO_BASE_URL, Version.v1⟩
        (fun _ _ => Option.none) "http//:bad route" Option.none
        (fun j => decodePageOrder [] j) (fun _ => SendOutcome.err Option.none) =
      Option.some (Except.error Error.url, []) := by
  have h := url_failure_no_send (α := Page Order)
    ⟨AuthState.none, PRINTAVO_BASE_URL, Version.v1⟩
    (fun _ _ => Option.none) "http//:bad route" Option.none Option.none Option.none
    (fun j => decodePageOrder [] j) (fun _ => SendOutcome.err Option.none) rfl
  exact ⟨h.1, h.2.2⟩

/-- C5 (code bug): the built client stores the token as a plain string inside
`AuthState` and `Printavo` derives `Debug`, so Debug-formatting the built
client prints the secret verbatim — the builder-side `SecretString` redaction
is lost at `build` time via `expose_secret`. The secret `"hunter2"` appears
in clear in the rendered output. -/
theorem build_token_debug_leaks_secret :
    (PrintavoBuilder.default.token_auth "user@example.com" "hunter2").build =
      BuildOutcome.ok ⟨AuthState.tokenAuth "user@example.com" "hunter2",
        PRINTAVO_BASE_URL, Version.v1⟩ ∧
    Printavo.debugFmt ⟨AuthState.tokenAuth "user@example.com" "hunter2",
        PRINTAVO_BASE_URL, Version.v1⟩ =
      "Printavo \x7b client: Client, auth_state: TokenAuth \x7b email: \"user@example.com\", token: \"" ++
        "hunter2" ++
        "\" \x7d, base_url: https://www.printavo.com, version: V1 \x7d" ∧
    SecretString.debugFmt ⟨"hunter2"⟩ = "SecretString([REDACTED])" := by
  refine ⟨rfl, ?_, rfl⟩
  rfl

/-- C6 (code bug): an extra default header whose value is not a valid header
value makes `build` panic through `value.parse().unwrap()` instead of
returning a construction error. -/
theorem build_invalid_header_panics :
    isValidHeaderValue "bad\nvalue" = false ∧
    (PrintavoBuilder.default.add_header "x-custom-header" "bad\nvalue").build =
      BuildOutcome.panicked "called Result::unwrap() on an Err value" := by
  exact ⟨by decide, by decide⟩

/-- C7: decoding `{"data":[{"id":"not-a-number"}],"meta":{...}}` into
`Page<Order>` fails at the first structural fault and the returned
`Error::Json` carries exactly the rendered path `data[0].id`. -/
theorem decode_error_path_data0_id :
    fromResponseWith (fun j => decodePageOrder [] j)
        ⟨200, Json.obj
          [("data", Json.arr [Json.obj [("id", Json.str "not-a-number")]]),
           ("meta", Json.obj [("page", Json.num 1), ("per_page", Json.num 10),
                              ("total_count", Json.num 1), ("total_pages", Json.num 1)])]⟩ =
      Except.error (Error.json "data[0].id" "invalid type: string, expected u32") ∧
    (∀ (j : Json) (st : Nat) (p : List Seg) (m : String),
      decodePageOrder [] j = Except.error (p, m) →
      fromResponseWith (fun j => decodePageOrder [] j) ⟨st, j⟩ =
        Except.error (Error.json (renderSegs p) m)) := by
  refine ⟨rfl, ?_⟩
  intro j st p m hd
  unfold fromResponseWith
  simp only [hd]

/-- Witness for C7 at a body whose decode fails at the document root. -/
theorem decode_error_path_data0_id_witness :
    fromResponseWith (fun j => decodePageOrder [] j) ⟨404, Json.str "oops"⟩ =
      Except.error (Error.json "." "invalid type: expected struct Page") :=
  decode_error_path_data0_id.2 (Json.str "oops") 404 []
    "invalid type: expected struct Page" rfl

/-- Ten orders as served for the pagination round-trip. -/
def pageRoundtripOrders : List Order :=
  [⟨1, 10⟩, ⟨2, 20⟩, ⟨3, 30⟩, ⟨4, 40⟩, ⟨5, 50⟩,
   ⟨6, 60⟩, ⟨7, 70⟩, ⟨8, 80⟩, ⟨9, 90⟩, ⟨10, 100⟩]

/-- The pagination round-trip response body: `meta.page = 2`, `per_page =
10`, `total_count = 25`, and a `total_pages` of 99 — deliberately different
from any recomputation from `total_count` and `per_page` — with ten items. -/
def pageRoundtripDoc : Json :=
  Json.obj
    [("meta", Json.obj [("page", Json.num 2), ("per_page", Json.num 10),
        ("total_count", Json.num 25), ("total_pages", Json.num 99)]),
     ("data", Json.arr
       [Json.obj [("id", Json.num 1), ("order_total", Json.num 10)],
        Json.obj [("id", Json.num 2), ("order_total", Json.num 20)],
        Json.obj [("id", Json.num 3), ("order_total", Json.num 30)],
        Json.obj [("id", Json.num 4), ("order_total", Json.num 40)],
        Json.obj [("id", Json.num 5), ("order_total", Json.num 50)],
        Json.obj [("id", Json.num 6), ("order_total", Json.num 60)],
        Json.obj [("id", Json.num 7), ("order_total", Json.num 70)],
        Json.obj [("id", Json.num 8), ("order_total", Json.num 80)],
        Json.obj [("id", Json.num 9), ("order_total", Json.num 90)],
        Json.obj [("id", Json.num 10), ("order_total", Json.num 100)]])]

/-- C8: decoding the round-trip body yields a `Page` whose one-shot (and
by-reference) iteration produces exactly the ten decoded items in server
order and whose `meta` fields — `total_pages` in particular — are the body's
values unmodified: 99 is preserved even though recomputing pages from
`total_count = 25` and `per_page = 10` would give 3. -/
theorem page_roundtrip_meta_preserved :
    fromResponseWith (fun j => decodePageOrder [] j) ⟨200, pageRoundtripDoc⟩ =
      Except.ok ⟨⟨2, 10, 25, 99⟩, pageRoundtripOrders⟩ ∧
    Page.intoIter ⟨⟨2, 10, 25, 99⟩, pageRoundtripOrders⟩ = pageRoundtripOrders ∧
    Page.iterRef ⟨⟨2, 10, 25, 99⟩, pageRoundtripOrders⟩ = pageRoundtripOrders ∧
    (⟨2, 10, 25, 99⟩ : PageMeta).total_pages = 99 ∧
    ¬ (⟨2, 10, 25, 99⟩ : PageMeta).total_pages = (25 + 10 - 1) / 10 := by
  exact ⟨rfl, rfl, rfl, rfl, by decide⟩

/-- List of the serialized keys of a `ListOrdersBuilder`: exactly the set
fields, in declaration order. -/
lemma listOrders_serialize_keys (b : ListOrdersBuilder) :
    b.serialize.map Prod.fst =
      (match b.page with | Option.some _ => ["page"] | Option.none => []) ++
      (match b.per_page with | Option.some _ => ["per_page"] | Option.none => []) ++
      (match b.sort_column with | Option.some _ => ["sort_column"] | Option.none => []) ++
      (match b.direction with | Option.some _ => ["direction"] | Option.none => []) ++
      (match b.in_production_after with
       | Option.some _ => ["in_production_after"] | Option.none => []) ++
      (match b.in_production_before with
       | Option.some _ => ["in_production_before"] | Option.none => []) := by
  obtain ⟨p, pp, sc, d, ia, ib⟩ := b
  rcases p <;> rcases pp <;> rcases sc <;> rcases d <;> rcases ia <;> rcases ib <;> rfl

/-- List of the serialized keys of a `SearchOrdersBuilder`. -/
lemma searchOrders_serialize_keys (b : SearchOrdersBuilder) :
    b.serialize.map Prod.fst =
      (match b.page with | Option.some _ => ["page"] | Option.none => []) ++
      (match b.per_page with | Option.some _ => ["per_page"] | Option.none => []) ++
      (match b.query with | Option.some _ => ["query"] | Option.none => []) := by
  obtain ⟨p, pp, q⟩ := b
  rcases p <;> rcases pp <;> rcases q <;> rfl

/-- C9: a list/search builder with no setter called serializes to an empty
parameter bag — no keys at all — and, in general, every unset optional field
contributes no key to the serialized output. -/
theorem builders_omit_unset_fields :
    ListOrdersBuilder.new.serialize = [] ∧
    SearchOrdersBuilder.new.serialize = [] ∧
    (∀ b : ListOrdersBuilder, b.page = Option.none →
      "page" ∉ b.serialize.map Prod.fst) ∧
    (∀ b : ListOrdersBuilder, b.per_page = Option.none →
      "per_page" ∉ b.serialize.map Prod.fst) ∧
    (∀ b : ListOrdersBuilder, b.sort_column = Option.none →
      "sort_column" ∉ b.serialize.map Prod.fst) ∧
    (∀ b : ListOrdersBuilder, b.direction = Option.none →
      "direction" ∉ b.serialize.map Prod.fst) ∧
    (∀ b : ListOrdersBuilder, b.in_production_after = Option.none →
      "in_production_after" ∉ b.serialize.map Prod.fst) ∧
    (∀ b : ListOrdersBuilder, b.in_production_before = Option.none →
      "in_production_before" ∉ b.serialize.map Prod.fst) ∧
    (∀ b : SearchOrdersBuilder, b.page = Option.none →
      "page" ∉ b.serialize.map Prod.fst) ∧
    (∀ b : SearchOrdersBuilder, b.per_page = Option.none →
      "per_page" ∉ b.serialize.map Prod.fst) ∧
    (∀ b : SearchOrdersBuilder, b.query = Option.none →
      "query" ∉ b.serialize.map Prod.fst) := by
  refine ⟨rfl, rfl, ?_, ?_, ?_, ?_, ?_, ?_, ?_, ?_, ?_⟩ <;>
    intro b h <;>
    first
      | (rw [listOrders_serialize_keys b, h];
         obtain ⟨p, pp, sc, d, ia, ib⟩ := b;
         rcases pp <;> rcases sc <;> rcases d <;> rcases ia <;> rcases ib <;>
         rcases p <;> simp)
      | (rw [searchOrders_serialize_keys b, h];
         obtain ⟨p, pp, q⟩ := b;
         rcases p <;> rcases pp <;> rcases q <;> simp)

/-- Witness for C9 at the fresh builders and two partially-set builders. -/
theorem builders_omit_unset_fields_witness :
    ListOrdersBuilder.new.serialize = [] ∧
    SearchOrdersBuilder.new.serialize = [] ∧
    "sort_column" ∉ (ListOrdersBuilder.new.page' 2).serialize.map Prod.fst ∧
    "query" ∉ (SearchOrdersBuilder.new.page' 1).serialize.map Prod.fst := by
  refine ⟨builders_omit_unset_fields.1, builders_omit_unset_fields.2.1, ?_, ?_⟩
  · exact builders_omit_unset_fields.2.2.2.2.1 (ListOrdersBuilder.new.page' 2) rfl
  · exact builders_omit_unset_fields.2.2.2.2.2.2.2.2.2.2
      (SearchOrdersBuilder.new.page' 1) rfl
